import Mathlib

/-!
MIDI_PercussionKit: the MIDI message sender.

A shallow embedding of `src/MIDI_Comms.h` (class `midiComms`), `src/debug.h`
(the `USE_MIDI` switch) and `src/GM_Percussion.h` (the note constants),
followed by theorems about the bytes that each operation hands to the
output stream.

Conventions of the embedding.
* A `uint8_t` value is a natural number below 256. A function parameter of
  type `uint8_t` is reduced modulo 256 on entry (`uint8_t`), the result of an
  addition stored into a `uint8_t` cell is reduced modulo 256 as well.
* The output stream `_S` is the list of the `write(buf, len)` calls it has
  received, oldest first; each call is recorded as the `len` bytes it passed.
* `midiSend` changes nothing but the stream, so every operation is a function
  from the object before the call to the object after it.
* The build with `USE_MIDI` zero also prints on the global `Serial`; it is
  modelled by `midiSendBuild`, over the calls received by `Serial` and by a
  stream other than it.
-/

namespace MidiPercussionKit

/-! ## debug.h -/

/-- The switch `#define USE_MIDI 1` of `debug.h`. -/
def USE_MIDI : Nat := 1

/-! ## The output stream -/

/-- The Arduino `Stream` an object of `midiComms` writes to, as the sequence
of the `write` calls made on it. -/
structure Stream where
  /-- Payload of every `write(buf, len)` call so far, oldest first. -/
  writes : List (List Nat)
  deriving DecidableEq, Repr

/-- The call `write(buf, len)`: one more call, carrying `buf[0..len-1]`. -/
def Stream.write (s : Stream) (buf : List Nat) (len : Nat) : Stream :=
  { writes := s.writes ++ [buf.take len] }

/-- All bytes the stream has received, in order of arrival. -/
def Stream.bytes (s : Stream) : List Nat :=
  s.writes.flatten

/-! ## MIDI_Comms.h -/

/-- Conversion of a value to `uint8_t`. -/
def uint8_t (x : Nat) : Nat :=
  x % 256

/-- An object of class `midiComms`: its only mutable member is the stream. -/
structure midiComms where
  /-- The member `Stream& _S`. -/
  _S : Stream
  deriving DecidableEq, Repr

/-- The member `const uint8_t PERCUSSION_CHANNEL = 9`. -/
def PERCUSSION_CHANNEL : Nat := 9

/-- Lines 19 to 24 of `midiSend`: the local buffer `msg[3]` and the count `l`
after the assembly. The three cells start as `0` in the model (C++ leaves them
indeterminate); a cell at index `l` or above is never passed to `write`.
The arguments are `uint8_t` values here. -/
def assemble (message channel d1 d2 : Nat) : List Nat × Nat :=
  let msg : List Nat := [0, 0, 0]
  let l : Nat := 0
  -- msg[l++] = message + channel;
  let msg := msg.set l (uint8_t (message + channel))
  let l := l + 1
  -- msg[l++] = d1;
  let msg := msg.set l d1
  let l := l + 1
  -- if (message <= 0xb0) msg[l++] = d2;
  if message ≤ 0xb0 then
    (msg.set l d2, l + 1)
  else
    (msg, l)

/-- The body of `midiSend` with the preprocessor switch as a parameter:
`_S.write(msg, l)` is compiled in exactly when `useMidi` is not zero. -/
def midiSendWith (useMidi : Nat) (self : midiComms) (message channel d1 d2 : Nat) : midiComms :=
  let message := uint8_t message
  let channel := uint8_t channel
  let d1 := uint8_t d1
  let d2 := uint8_t d2
  let r := assemble message channel d1 d2
  if useMidi ≠ 0 then
    { self with _S := self._S.write r.1 r.2 }
  else
    self

/-- The method `midiSend(message, channel, d1, d2)` as built with the
`USE_MIDI` of `debug.h`. -/
def midiSend (self : midiComms) (message channel d1 d2 : Nat) : midiComms :=
  midiSendWith USE_MIDI self message channel d1 d2

/-! ### System messages -/

/-- The method `noteOff(n)`. -/
def noteOff (self : midiComms) (n : Nat) : midiComms :=
  midiSend self 0x80 PERCUSSION_CHANNEL n 0

/-- The method `noteOn(n, v)`. -/
def noteOn (self : midiComms) (n v : Nat) : midiComms :=
  midiSend self 0x90 PERCUSSION_CHANNEL n v

/-- The method `keyPress(n, p)`. -/
def keyPress (self : midiComms) (n p : Nat) : midiComms :=
  midiSend self 0xa0 PERCUSSION_CHANNEL n p

/-- The method `ctrlChange(c, v)`. -/
def ctrlChange (self : midiComms) (c v : Nat) : midiComms :=
  midiSend self 0xb0 PERCUSSION_CHANNEL c v

/-- The method `progChange(n)`; `d2` takes its default value `0`. -/
def progChange (self : midiComms) (n : Nat) : midiComms :=
  midiSend self 0xc0 PERCUSSION_CHANNEL n 0

/-- The method `chanPress(p)`; `d2` takes its default value `0`. -/
def chanPress (self : midiComms) (p : Nat) : midiComms :=
  midiSend self 0xd0 PERCUSSION_CHANNEL p 0

/-- The method `pitchBlend(m, l)`. -/
def pitchBlend (self : midiComms) (m l : Nat) : midiComms :=
  midiSend self 0xe0 PERCUSSION_CHANNEL m l

/-! ### Channel mode messages -/

/-- The method `chanSoundOff()`; `d2` takes its default value `0`. -/
def chanSoundOff (self : midiComms) : midiComms :=
  midiSend self 0xb0 PERCUSSION_CHANNEL 0x78 0

/-- The method `chanReset()`; `d2` takes its default value `0`. -/
def chanReset (self : midiComms) : midiComms :=
  midiSend self 0xb0 PERCUSSION_CHANNEL 0x79 0

/-- The method `chanLocalCtrl(v)`. -/
def chanLocalCtrl (self : midiComms) (v : Nat) : midiComms :=
  midiSend self 0xb0 PERCUSSION_CHANNEL 0x7a v

/-- The method `chanNotesOff()`; `d2` takes its default value `0`. -/
def chanNotesOff (self : midiComms) : midiComms :=
  midiSend self 0xb0 PERCUSSION_CHANNEL 0x7b 0

/-- The method `chanOmniOff()`; `d2` takes its default value `0`. -/
def chanOmniOff (self : midiComms) : midiComms :=
  midiSend self 0xb0 PERCUSSION_CHANNEL 0x7c 0

/-- The method `chanOmniOn()`; `d2` takes its default value `0`. -/
def chanOmniOn (self : midiComms) : midiComms :=
  midiSend self 0xb0 PERCUSSION_CHANNEL 0x7d 0

/-- The method `chanMonoOn(n)`. -/
def chanMonoOn (self : midiComms) (n : Nat) : midiComms :=
  midiSend self 0xb0 PERCUSSION_CHANNEL 0x7e n

/-- The method `chanPolyOn()`; `d2` takes its default value `0`. -/
def chanPolyOn (self : midiComms) : midiComms :=
  midiSend self 0xb0 PERCUSSION_CHANNEL 0x7f 0

/-! ### Control changes -/

/-- The method `ctlBankMSB(b)`. -/
def ctlBankMSB (self : midiComms) (b : Nat) : midiComms :=
  midiSend self 0xb0 PERCUSSION_CHANNEL 0x00 b

/-- The method `ctlBankLSB(b)`. -/
def ctlBankLSB (self : midiComms) (b : Nat) : midiComms :=
  midiSend self 0xb0 PERCUSSION_CHANNEL 0x20 b

/-- The method `ctlModMSB(m)`. -/
def ctlModMSB (self : midiComms) (m : Nat) : midiComms :=
  midiSend self 0xb0 PERCUSSION_CHANNEL 0x01 m

/-- The method `ctlModLSB(m)`. -/
def ctlModLSB (self : midiComms) (m : Nat) : midiComms :=
  midiSend self 0xb0 PERCUSSION_CHANNEL 0x21 m

/-- The method `ctlVolMSB(v)`. -/
def ctlVolMSB (self : midiComms) (v : Nat) : midiComms :=
  midiSend self 0xb0 PERCUSSION_CHANNEL 0x07 v

/-- The method `ctlVolLSB(v)`. -/
def ctlVolLSB (self : midiComms) (v : Nat) : midiComms :=
  midiSend self 0xb0 PERCUSSION_CHANNEL 0x27 v

/-! ### The two builds of `midiSend`

With `USE_MIDI` zero the macros `PRINT` and `PRINTX` of `debug.h` expand to
calls on the global `Serial`; `_S` is a reference, which may be bound to
`Serial` itself or to another stream. -/

/-- A call received by a serial stream: `write(buf, len)` with the bytes
passed, `print(F(s))` with the text, or `print(v)` and `print(v, HEX)` with the
value and the base (10 and 16). -/
inductive Call where
  | write (bytes : List Nat)
  | printF (s : String)
  | print (v : Nat) (base : Nat)
  deriving DecidableEq, Repr

/-- The object a reference to a stream is bound to: the global `Serial`, or a
stream other than it. -/
inductive StreamRef where
  | Serial
  | other
  deriving DecidableEq, Repr

/-- The streams of the program, each as the calls it has received, oldest
first. -/
structure Machine where
  /-- The global `Serial`. -/
  Serial : List Call
  /-- A stream other than `Serial`. -/
  other : List Call
  deriving DecidableEq, Repr

/-- The calls received by the stream a reference is bound to. -/
def Machine.get (w : Machine) (r : StreamRef) : List Call :=
  match r with
  | .Serial => w.Serial
  | .other => w.other

/-- One more call on the stream a reference is bound to. -/
def Machine.call (w : Machine) (r : StreamRef) (c : Call) : Machine :=
  match r with
  | .Serial => { w with Serial := w.Serial ++ [c] }
  | .other => { w with other := w.other ++ [c] }

/-- The macro `PRINT(s, v)` of `debug.h`: empty when `USE_MIDI` is not zero,
else `Serial.print(F(s)); Serial.print(v);`. -/
def PRINT (useMidi : Nat) (w : Machine) (s : String) (v : Nat) : Machine :=
  if useMidi ≠ 0 then
    w
  else
    (w.call .Serial (.printF s)).call .Serial (.print v 10)

/-- The macro `PRINTX(s, v)` of `debug.h`: empty when `USE_MIDI` is not zero,
else `Serial.print(F(s)); Serial.print(F("0x")); Serial.print(v, HEX);`. -/
def PRINTX (useMidi : Nat) (w : Machine) (s : String) (v : Nat) : Machine :=
  if useMidi ≠ 0 then
    w
  else
    ((w.call .Serial (.printF s)).call .Serial (.printF "0x")).call .Serial (.print v 16)

/-- The whole body of `midiSend` for an object whose `_S` is bound to `S`,
built with `USE_MIDI` equal to `useMidi`. The result is the streams after the
call, together with the locals `msg` and `l` at the end of the body. A cell of
`msg` that was not assigned reads as `0` in the model (C++ leaves it
indeterminate); that only concerns the value printed after " d2: " for a two
byte message. -/
def midiSendBuild (useMidi : Nat) (S : StreamRef) (w : Machine)
    (message channel d1 d2 : Nat) : Machine × (List Nat × Nat) :=
  let message := uint8_t message
  let channel := uint8_t channel
  let d1 := uint8_t d1
  let d2 := uint8_t d2
  let r := assemble message channel d1 d2
  -- #if USE_MIDI  _S.write(msg, l);  #endif
  let w := if useMidi ≠ 0 then w.call S (.write (r.1.take r.2)) else w
  let w := PRINTX useMidi w "\nCh: " (r.1.getD 0 0)
  let w := PRINT useMidi w " d1: " (r.1.getD 1 0)
  let w := PRINT useMidi w " d2: " (r.1.getD 2 0)
  (w, r)

/-! ### The derived operations as data -/

/-- The bytes `midiSend` passes to `write` for given `uint8_t` arguments: the
first `l` cells of `msg`, in index order. -/
def payload (message channel d1 d2 : Nat) : List Nat :=
  (assemble message channel d1 d2).1.take (assemble message channel d1 d2).2

/-- A call of one of the 21 derived operations of `midiComms`, with its
arguments: the 7 message type operations, the 8 channel mode operations and
the 6 control change operations. -/
inductive DerivedOp where
  | noteOff (n : Nat)
  | noteOn (n v : Nat)
  | keyPress (n p : Nat)
  | ctrlChange (c v : Nat)
  | progChange (n : Nat)
  | chanPress (p : Nat)
  | pitchBlend (m l : Nat)
  | chanSoundOff
  | chanReset
  | chanLocalCtrl (v : Nat)
  | chanNotesOff
  | chanOmniOff
  | chanOmniOn
  | chanMonoOn (n : Nat)
  | chanPolyOn
  | ctlBankMSB (b : Nat)
  | ctlBankLSB (b : Nat)
  | ctlModMSB (m : Nat)
  | ctlModLSB (m : Nat)
  | ctlVolMSB (v : Nat)
  | ctlVolLSB (v : Nat)
  deriving DecidableEq, Repr

/-- Performing a call on an object: each case is the method of that name. -/
def DerivedOp.run (op : DerivedOp) (self : midiComms) : midiComms :=
  match op with
  | .noteOff n => MidiPercussionKit.noteOff self n
  | .noteOn n v => MidiPercussionKit.noteOn self n v
  | .keyPress n p => MidiPercussionKit.keyPress self n p
  | .ctrlChange c v => MidiPercussionKit.ctrlChange self c v
  | .progChange n => MidiPercussionKit.progChange self n
  | .chanPress p => MidiPercussionKit.chanPress self p
  | .pitchBlend m l => MidiPercussionKit.pitchBlend self m l
  | .chanSoundOff => MidiPercussionKit.chanSoundOff self
  | .chanReset => MidiPercussionKit.chanReset self
  | .chanLocalCtrl v => MidiPercussionKit.chanLocalCtrl self v
  | .chanNotesOff => MidiPercussionKit.chanNotesOff self
  | .chanOmniOff => MidiPercussionKit.chanOmniOff self
  | .chanOmniOn => MidiPercussionKit.chanOmniOn self
  | .chanMonoOn n => MidiPercussionKit.chanMonoOn self n
  | .chanPolyOn => MidiPercussionKit.chanPolyOn self
  | .ctlBankMSB b => MidiPercussionKit.ctlBankMSB self b
  | .ctlBankLSB b => MidiPercussionKit.ctlBankLSB self b
  | .ctlModMSB m => MidiPercussionKit.ctlModMSB self m
  | .ctlModLSB m => MidiPercussionKit.ctlModLSB self m
  | .ctlVolMSB v => MidiPercussionKit.ctlVolMSB self v
  | .ctlVolLSB v => MidiPercussionKit.ctlVolLSB self v

/-- The arguments a call of a derived operation is made with. -/
def DerivedOp.args (op : DerivedOp) : List Nat :=
  match op with
  | .noteOff n => [n]
  | .noteOn n v => [n, v]
  | .keyPress n p => [n, p]
  | .ctrlChange c v => [c, v]
  | .progChange n => [n]
  | .chanPress p => [p]
  | .pitchBlend m l => [m, l]
  | .chanSoundOff => []
  | .chanReset => []
  | .chanLocalCtrl v => [v]
  | .chanNotesOff => []
  | .chanOmniOff => []
  | .chanOmniOn => []
  | .chanMonoOn n => [n]
  | .chanPolyOn => []
  | .ctlBankMSB b => [b]
  | .ctlBankLSB b => [b]
  | .ctlModMSB m => [m]
  | .ctlModLSB m => [m]
  | .ctlVolMSB v => [v]
  | .ctlVolLSB v => [v]

/-! ## GM_Percussion.h -/

/-- The constant `ACOUSTIC_BASS_DRUM` of `GM_Percussion.h`. -/
def ACOUSTIC_BASS_DRUM : Nat := 35

/-- The constant `BASS_DRUM_1` of `GM_Percussion.h`. -/
def BASS_DRUM_1 : Nat := 36

/-- The constant `ACOUSTIC_SNARE` of `GM_Percussion.h`. -/
def ACOUSTIC_SNARE : Nat := 38

/-- The constant `ELECTRIC_SNARE` of `GM_Percussion.h`. -/
def ELECTRIC_SNARE : Nat := 40

/-- The constant `LO_FLOOR_TOM` of `GM_Percussion.h`. -/
def LO_FLOOR_TOM : Nat := 41

/-- The constant `HI_FLOOR_TOM` of `GM_Percussion.h`. -/
def HI_FLOOR_TOM : Nat := 43

/-- The constant `LO_MID_TOM` of `GM_Percussion.h`. -/
def LO_MID_TOM : Nat := 47

/-- The constant `HI_MID_TOM` of `GM_Percussion.h`. -/
def HI_MID_TOM : Nat := 48

/-- The constant `LO_TOM` of `GM_Percussion.h`. -/
def LO_TOM : Nat := 45

/-- The constant `HI_TOM` of `GM_Percussion.h`. -/
def HI_TOM : Nat := 50

/-- The constant `CLOSED_HI_HAT` of `GM_Percussion.h`. -/
def CLOSED_HI_HAT : Nat := 42

/-- The constant `PEDAL_HI_HAT` of `GM_Percussion.h`. -/
def PEDAL_HI_HAT : Nat := 44

/-- The constant `OPEN_HI_HAT` of `GM_Percussion.h`. -/
def OPEN_HI_HAT : Nat := 46

/-- The constant `CRASH_CYMBAL_1` of `GM_Percussion.h`. -/
def CRASH_CYMBAL_1 : Nat := 49

/-- The constant `RIDE_CYMBAL_1` of `GM_Percussion.h`. -/
def RIDE_CYMBAL_1 : Nat := 51

/-- The constant `RIDE_CYMBAL_2` of `GM_Percussion.h`. -/
def RIDE_CYMBAL_2 : Nat := 59

/-- The constant `CHINESE_CYMBAL` of `GM_Percussion.h`. -/
def CHINESE_CYMBAL : Nat := 52

/-- The constant `SPLASH_CYMBAL` of `GM_Percussion.h`. -/
def SPLASH_CYMBAL : Nat := 55

/-- The constant `CRASH_CYMBAL_2` of `GM_Percussion.h`. -/
def CRASH_CYMBAL_2 : Nat := 57

/-- The constant `HI_BONGO` of `GM_Percussion.h`. -/
def HI_BONGO : Nat := 60

/-- The constant `LO_BONGO` of `GM_Percussion.h`. -/
def LO_BONGO : Nat := 61

/-- The constant `MUTE_HI_CONGA` of `GM_Percussion.h`. -/
def MUTE_HI_CONGA : Nat := 62

/-- The constant `OPEN_HI_CONGA` of `GM_Percussion.h`. -/
def OPEN_HI_CONGA : Nat := 63

/-- The constant `LO_CONGA` of `GM_Percussion.h`. -/
def LO_CONGA : Nat := 64

/-- The constant `RIDE_BELL` of `GM_Percussion.h`. -/
def RIDE_BELL : Nat := 53

/-- The constant `COWBELL` of `GM_Percussion.h`. -/
def COWBELL : Nat := 56

/-- The constant `SHORT_WHISTLE` of `GM_Percussion.h`. -/
def SHORT_WHISTLE : Nat := 71

/-- The constant `LONG_WHISTLE` of `GM_Percussion.h`. -/
def LONG_WHISTLE : Nat := 72

/-- The constant `MUTE_TRIANGLE` of `GM_Percussion.h`. -/
def MUTE_TRIANGLE : Nat := 80

/-- The constant `OPEN_TRIANGLE` of `GM_Percussion.h`. -/
def OPEN_TRIANGLE : Nat := 81

/-- The constant `HI_TIMBALE` of `GM_Percussion.h`. -/
def HI_TIMBALE : Nat := 65

/-- The constant `LO_TIMBALE` of `GM_Percussion.h`. -/
def LO_TIMBALE : Nat := 66

/-- The constant `HI_AGOGO` of `GM_Percussion.h`. -/
def HI_AGOGO : Nat := 67

/-- The constant `LO_AGOGO` of `GM_Percussion.h`. -/
def LO_AGOGO : Nat := 68

/-- The constant `HI_WOOD_BLOCK` of `GM_Percussion.h`. -/
def HI_WOOD_BLOCK : Nat := 76

/-- The constant `LO_WOOD_BLOCK` of `GM_Percussion.h`. -/
def LO_WOOD_BLOCK : Nat := 77

/-- The constant `SHORT_GUIRO` of `GM_Percussion.h`. -/
def SHORT_GUIRO : Nat := 73

/-- The constant `LONG_GUIRO` of `GM_Percussion.h`. -/
def LONG_GUIRO : Nat := 74

/-- The constant `MUTE_CUICA` of `GM_Percussion.h`. -/
def MUTE_CUICA : Nat := 78

/-- The constant `OPEN_CUICA` of `GM_Percussion.h`. -/
def OPEN_CUICA : Nat := 79

/-- The constant `SIDE_STICK` of `GM_Percussion.h`. -/
def SIDE_STICK : Nat := 37

/-- The constant `HAND_CLAP` of `GM_Percussion.h`. -/
def HAND_CLAP : Nat := 39

/-- The constant `TAMBOURINE` of `GM_Percussion.h`. -/
def TAMBOURINE : Nat := 54

/-- The constant `VIBRASLAP` of `GM_Percussion.h`. -/
def VIBRASLAP : Nat := 58

/-- The constant `CABASA` of `GM_Percussion.h`. -/
def CABASA : Nat := 69

/-- The constant `MARACAS` of `GM_Percussion.h`. -/
def MARACAS : Nat := 70

/-- The constant `CLAVES` of `GM_Percussion.h`. -/
def CLAVES : Nat := 75

/-- The percussion note map: every constant of `GM_Percussion.h`, by name, in
the order of the file. -/
def percussionMap : List (String × Nat) :=
  [
    ("ACOUSTIC_BASS_DRUM", ACOUSTIC_BASS_DRUM),
    ("BASS_DRUM_1", BASS_DRUM_1),
    ("ACOUSTIC_SNARE", ACOUSTIC_SNARE),
    ("ELECTRIC_SNARE", ELECTRIC_SNARE),
    ("LO_FLOOR_TOM", LO_FLOOR_TOM),
    ("HI_FLOOR_TOM", HI_FLOOR_TOM),
    ("LO_MID_TOM", LO_MID_TOM),
    ("HI_MID_TOM", HI_MID_TOM),
    ("LO_TOM", LO_TOM),
    ("HI_TOM", HI_TOM),
    ("CLOSED_HI_HAT", CLOSED_HI_HAT),
    ("PEDAL_HI_HAT", PEDAL_HI_HAT),
    ("OPEN_HI_HAT", OPEN_HI_HAT),
    ("CRASH_CYMBAL_1", CRASH_CYMBAL_1),
    ("RIDE_CYMBAL_1", RIDE_CYMBAL_1),
    ("RIDE_CYMBAL_2", RIDE_CYMBAL_2),
    ("CHINESE_CYMBAL", CHINESE_CYMBAL),
    ("SPLASH_CYMBAL", SPLASH_CYMBAL),
    ("CRASH_CYMBAL_2", CRASH_CYMBAL_2),
    ("HI_BONGO", HI_BONGO),
    ("LO_BONGO", LO_BONGO),
    ("MUTE_HI_CONGA", MUTE_HI_CONGA),
    ("OPEN_HI_CONGA", OPEN_HI_CONGA),
    ("LO_CONGA", LO_CONGA),
    ("RIDE_BELL", RIDE_BELL),
    ("COWBELL", COWBELL),
    ("SHORT_WHISTLE", SHORT_WHISTLE),
    ("LONG_WHISTLE", LONG_WHISTLE),
    ("MUTE_TRIANGLE", MUTE_TRIANGLE),
    ("OPEN_TRIANGLE", OPEN_TRIANGLE),
    ("HI_TIMBALE", HI_TIMBALE),
    ("LO_TIMBALE", LO_TIMBALE),
    ("HI_AGOGO", HI_AGOGO),
    ("LO_AGOGO", LO_AGOGO),
    ("HI_WOOD_BLOCK", HI_WOOD_BLOCK),
    ("LO_WOOD_BLOCK", LO_WOOD_BLOCK),
    ("SHORT_GUIRO", SHORT_GUIRO),
    ("LONG_GUIRO", LONG_GUIRO),
    ("MUTE_CUICA", MUTE_CUICA),
    ("OPEN_CUICA", OPEN_CUICA),
    ("SIDE_STICK", SIDE_STICK),
    ("HAND_CLAP", HAND_CLAP),
    ("TAMBOURINE", TAMBOURINE),
    ("VIBRASLAP", VIBRASLAP),
    ("CABASA", CABASA),
    ("MARACAS", MARACAS),
    ("CLAVES", CLAVES)]

/-- The note numbers of the map, in the order of the file. -/
def percussionNotes : List Nat :=
  percussionMap.map Prod.snd

/-- The names of the map, in the order of the file. -/
def percussionNames : List String :=
  percussionMap.map Prod.fst

/-! ## Helper lemmas -/

/-- What `midiSend` does to the stream, with the assembly unfolded. -/
theorem midiSend_writes (self : midiComms) (message channel d1 d2 : Nat) :
    (midiSend self message channel d1 d2)._S.writes =
      self._S.writes ++
        [if message % 256 ≤ 0xb0 then
            [(message % 256 + channel % 256) % 256, d1 % 256, d2 % 256]
          else
            [(message % 256 + channel % 256) % 256, d1 % 256]] := by
  unfold midiSend midiSendWith assemble uint8_t Stream.write USE_MIDI
  by_cases h : message % 256 ≤ 0xb0 <;> simp [h]

/-- On a status value of a three byte message and a channel of at most 15 the
sum and the bitwise or agree. -/
theorem status_or_eq_add (message channel : Nat)
    (hm : message = 0x80 ∨ message = 0x90 ∨ message = 0xa0 ∨ message = 0xb0)
    (hc : channel ≤ 15) : message ||| channel = message + channel := by
  rcases hm with rfl | rfl | rfl | rfl <;> interval_cases channel <;> rfl

/-- The first byte of the `write` call made by `midiSend`. -/
theorem midiSend_first_byte (self : midiComms) (message channel d1 d2 : Nat) :
    ∃ rest : List Nat, (midiSend self message channel d1 d2)._S.writes =
      self._S.writes ++ [(message % 256 + channel % 256) % 256 :: rest] := by
  rw [midiSend_writes]
  by_cases h : message % 256 ≤ 0xb0
  · exact ⟨[d1 % 256, d2 % 256], by rw [if_pos h]⟩
  · exact ⟨[d1 % 256], by rw [if_neg h]⟩

/-- Two objects are equal as soon as their streams hold the same calls. -/
theorem midiComms_eq_of_writes (a b : midiComms) (h : a._S.writes = b._S.writes) : a = b := by
  cases a with
  | mk sa =>
    cases b with
    | mk sb =>
      cases sa
      cases sb
      simp only at h
      simp [h]

/-- Every derived operation is one call of `midiSend` on the percussion
channel with one of the seven status values. -/
theorem run_eq_midiSend (op : DerivedOp) (self : midiComms) :
    ∃ message d1 d2 : Nat,
      (message = 0x80 ∨ message = 0x90 ∨ message = 0xa0 ∨ message = 0xb0 ∨
        message = 0xc0 ∨ message = 0xd0 ∨ message = 0xe0) ∧
      op.run self = midiSend self message PERCUSSION_CHANNEL d1 d2 := by
  cases op
  case noteOff n => exact ⟨0x80, n, 0, by simp, rfl⟩
  case noteOn n v => exact ⟨0x90, n, v, by simp, rfl⟩
  case keyPress n p => exact ⟨0xa0, n, p, by simp, rfl⟩
  case ctrlChange c v => exact ⟨0xb0, c, v, by simp, rfl⟩
  case progChange n => exact ⟨0xc0, n, 0, by simp, rfl⟩
  case chanPress p => exact ⟨0xd0, p, 0, by simp, rfl⟩
  case pitchBlend m l => exact ⟨0xe0, m, l, by simp, rfl⟩
  case chanSoundOff => exact ⟨0xb0, 0x78, 0, by simp, rfl⟩
  case chanReset => exact ⟨0xb0, 0x79, 0, by simp, rfl⟩
  case chanLocalCtrl v => exact ⟨0xb0, 0x7a, v, by simp, rfl⟩
  case chanNotesOff => exact ⟨0xb0, 0x7b, 0, by simp, rfl⟩
  case chanOmniOff => exact ⟨0xb0, 0x7c, 0, by simp, rfl⟩
  case chanOmniOn => exact ⟨0xb0, 0x7d, 0, by simp, rfl⟩
  case chanMonoOn n => exact ⟨0xb0, 0x7e, n, by simp, rfl⟩
  case chanPolyOn => exact ⟨0xb0, 0x7f, 0, by simp, rfl⟩
  case ctlBankMSB b => exact ⟨0xb0, 0x00, b, by simp, rfl⟩
  case ctlBankLSB b => exact ⟨0xb0, 0x20, b, by simp, rfl⟩
  case ctlModMSB m => exact ⟨0xb0, 0x01, m, by simp, rfl⟩
  case ctlModLSB m => exact ⟨0xb0, 0x21, m, by simp, rfl⟩
  case ctlVolMSB v => exact ⟨0xb0, 0x07, v, by simp, rfl⟩
  case ctlVolLSB v => exact ⟨0xb0, 0x27, v, by simp, rfl⟩

/-! ## The primitive send operation -/

/-- Claim C1: for a status value in 0x80, 0x90, 0xA0, 0xB0, a channel in 0..15
and any two `uint8_t` data values, `midiSend` makes one `write` call of exactly
three bytes: the status value or-ed with the channel (which equals their sum),
then `d1`, then `d2`. -/
theorem midiSend_three_bytes (self : midiComms) (message channel d1 d2 : Nat)
    (hm : message = 0x80 ∨ message = 0x90 ∨ message = 0xa0 ∨ message = 0xb0)
    (hc : channel ≤ 15) (h1 : d1 < 256) (h2 : d2 < 256) :
    (midiSend self message channel d1 d2)._S.writes =
        self._S.writes ++ [[message ||| channel, d1, d2]] ∧
      [message ||| channel, d1, d2].length = 3 ∧
      message ||| channel = message + channel := by
  have hor := status_or_eq_add message channel hm hc
  refine ⟨?_, rfl, hor⟩
  rw [midiSend_writes, hor]
  have hle : message % 256 ≤ 0xb0 := by omega
  rw [if_pos hle]
  have e0 : (message % 256 + channel % 256) % 256 = message + channel := by omega
  rw [e0, Nat.mod_eq_of_lt h1, Nat.mod_eq_of_lt h2]

/-- Claim C1 at Control Change on channel 15 with data 0x12 and 0xff. -/
theorem midiSend_three_bytes_witness :
    ((0xb0 : Nat) = 0x80 ∨ (0xb0 : Nat) = 0x90 ∨ (0xb0 : Nat) = 0xa0 ∨ (0xb0 : Nat) = 0xb0) ∧
      (15 : Nat) ≤ 15 ∧ (0x12 : Nat) < 256 ∧ (0xff : Nat) < 256 ∧
      ((midiSend ⟨⟨[[1, 2]]⟩⟩ 0xb0 15 0x12 0xff)._S.writes =
          (⟨⟨[[1, 2]]⟩⟩ : midiComms)._S.writes ++ [[0xb0 ||| 15, 0x12, 0xff]] ∧
        [0xb0 ||| 15, 0x12, 0xff].length = 3 ∧
        0xb0 ||| 15 = 0xb0 + 15) :=
  ⟨by decide, by decide, by decide, by decide,
    midiSend_three_bytes ⟨⟨[[1, 2]]⟩⟩ 0xb0 15 0x12 0xff (by decide) (by decide) (by decide)
      (by decide)⟩

/-- Claim C2: for a status value in 0xC0, 0xD0, 0xE0, a channel in 0..15 and
any two `uint8_t` data values, `midiSend` makes one `write` call of exactly two
bytes, the status value plus the channel and then `d1`; the payload is the same
for every `d2`, which is not written. -/
theorem midiSend_two_bytes (self : midiComms) (message channel d1 d2 : Nat)
    (hm : message = 0xc0 ∨ message = 0xd0 ∨ message = 0xe0)
    (hc : channel ≤ 15) (h1 : d1 < 256) (_h2 : d2 < 256) :
    (midiSend self message channel d1 d2)._S.writes =
        self._S.writes ++ [[message + channel, d1]] ∧
      [message + channel, d1].length = 2 ∧
      ∀ d2q : Nat, d2q < 256 →
        midiSend self message channel d1 d2q = midiSend self message channel d1 d2 := by
  have key : ∀ x : Nat, (midiSend self message channel d1 x)._S.writes =
      self._S.writes ++ [[message + channel, d1]] := by
    intro x
    rw [midiSend_writes]
    have hgt : ¬ message % 256 ≤ 0xb0 := by omega
    rw [if_neg hgt]
    have e0 : (message % 256 + channel % 256) % 256 = message + channel := by omega
    rw [e0, Nat.mod_eq_of_lt h1]
  refine ⟨key d2, rfl, ?_⟩
  intro d2q _
  have hq := key d2q
  have h0 := key d2
  cases hs : midiSend self message channel d1 d2q with
  | mk sq =>
    cases ht : midiSend self message channel d1 d2 with
    | mk st =>
      rw [hs] at hq
      rw [ht] at h0
      cases sq
      cases st
      simp only at hq h0
      simp [hq, h0]

/-- Claim C2 at Pitch Bend on channel 3 with data 0x45 and 0x67. -/
theorem midiSend_two_bytes_witness :
    ((0xe0 : Nat) = 0xc0 ∨ (0xe0 : Nat) = 0xd0 ∨ (0xe0 : Nat) = 0xe0) ∧
      (3 : Nat) ≤ 15 ∧ (0x45 : Nat) < 256 ∧ (0x67 : Nat) < 256 ∧
      ((midiSend ⟨⟨[]⟩⟩ 0xe0 3 0x45 0x67)._S.writes =
          (⟨⟨[]⟩⟩ : midiComms)._S.writes ++ [[0xe0 + 3, 0x45]] ∧
        [0xe0 + 3, 0x45].length = 2 ∧
        ∀ d2q : Nat, d2q < 256 →
          midiSend ⟨⟨[]⟩⟩ 0xe0 3 0x45 d2q = midiSend ⟨⟨[]⟩⟩ 0xe0 3 0x45 0x67) :=
  ⟨by decide, by decide, by decide, by decide,
    midiSend_two_bytes ⟨⟨[]⟩⟩ 0xe0 3 0x45 0x67 (by decide) (by decide) (by decide) (by decide)⟩

/-! ## The message type operations -/

/-- Claim C3, as the spec states it, fails: on an object whose stream has
received nothing, `noteOn(60, 100)` does not write the bytes 0x99, 0x60, 0x64
(the note 60 is the byte 0x3C, not 0x60). -/
theorem noteOn_60_100_not_0x60 :
    ¬ (noteOn ⟨⟨[]⟩⟩ 60 100)._S.writes =
        (⟨⟨[]⟩⟩ : midiComms)._S.writes ++ [[0x99, 0x60, 0x64]] := by
  decide

/-- Claim C3, amended: `noteOn(60, 100)` makes one `write` call carrying
exactly the bytes 0x99, 0x3C, 0x64, that is Note On on the percussion channel 9
with note 60 and velocity 100. -/
theorem noteOn_60_100 (self : midiComms) :
    (noteOn self 60 100)._S.writes = self._S.writes ++ [[0x99, 0x3C, 0x64]] := by
  unfold noteOn PERCUSSION_CHANNEL
  rw [midiSend_writes]
  rfl

/-- Claim C4: for all `uint8_t` arguments, `noteOff(n)` writes 0x89, n, 0;
`noteOn(n, v)` writes 0x99, n, v; `keyPress(n, p)` writes 0xA9, n, p; and
`ctrlChange(c, v)` writes 0xB9, c, v; each in one `write` call. -/
theorem three_byte_operations (self : midiComms) (a b : Nat) (ha : a < 256) (hb : b < 256) :
    (noteOff self a)._S.writes = self._S.writes ++ [[0x89, a, 0]] ∧
      (noteOn self a b)._S.writes = self._S.writes ++ [[0x99, a, b]] ∧
      (keyPress self a b)._S.writes = self._S.writes ++ [[0xA9, a, b]] ∧
      (ctrlChange self a b)._S.writes = self._S.writes ++ [[0xB9, a, b]] := by
  unfold noteOff noteOn keyPress ctrlChange PERCUSSION_CHANNEL
  simp only [midiSend_writes]
  rw [Nat.mod_eq_of_lt ha, Nat.mod_eq_of_lt hb]
  exact ⟨rfl, rfl, rfl, rfl⟩

/-- Claim C4 at the arguments 38 and 127, after an earlier Note On. -/
theorem three_byte_operations_witness :
    (38 : Nat) < 256 ∧ (127 : Nat) < 256 ∧
      ((noteOff ⟨⟨[[0x99, 38, 1]]⟩⟩ 38)._S.writes =
          (⟨⟨[[0x99, 38, 1]]⟩⟩ : midiComms)._S.writes ++ [[0x89, 38, 0]] ∧
        (noteOn ⟨⟨[[0x99, 38, 1]]⟩⟩ 38 127)._S.writes =
          (⟨⟨[[0x99, 38, 1]]⟩⟩ : midiComms)._S.writes ++ [[0x99, 38, 127]] ∧
        (keyPress ⟨⟨[[0x99, 38, 1]]⟩⟩ 38 127)._S.writes =
          (⟨⟨[[0x99, 38, 1]]⟩⟩ : midiComms)._S.writes ++ [[0xA9, 38, 127]] ∧
        (ctrlChange ⟨⟨[[0x99, 38, 1]]⟩⟩ 38 127)._S.writes =
          (⟨⟨[[0x99, 38, 1]]⟩⟩ : midiComms)._S.writes ++ [[0xB9, 38, 127]]) :=
  ⟨by decide, by decide,
    three_byte_operations ⟨⟨[[0x99, 38, 1]]⟩⟩ 38 127 (by decide) (by decide)⟩

/-- Claim C5: for every `uint8_t` n, `progChange(n)` makes one `write` call
of exactly the two bytes 0xC9, n; for every `uint8_t` p, `chanPress(p)` makes
one `write` call of exactly the two bytes 0xD9, p. No third byte follows. -/
theorem two_byte_operations (self : midiComms) (n p : Nat) (hn : n < 256) (hp : p < 256) :
    ((progChange self n)._S.writes = self._S.writes ++ [[0xC9, n]] ∧
        [0xC9, n].length = 2) ∧
      ((chanPress self p)._S.writes = self._S.writes ++ [[0xD9, p]] ∧
        [0xD9, p].length = 2) := by
  unfold progChange chanPress PERCUSSION_CHANNEL
  simp only [midiSend_writes]
  rw [Nat.mod_eq_of_lt hn, Nat.mod_eq_of_lt hp]
  exact ⟨⟨rfl, rfl⟩, ⟨rfl, rfl⟩⟩

/-- Claim C5 at `progChange(5)`, which writes 0xC9, 0x05, and `chanPress(64)`. -/
theorem two_byte_operations_witness :
    (5 : Nat) < 256 ∧ (64 : Nat) < 256 ∧
      (((progChange ⟨⟨[]⟩⟩ 5)._S.writes = (⟨⟨[]⟩⟩ : midiComms)._S.writes ++ [[0xC9, 0x05]] ∧
          [0xC9, 0x05].length = 2) ∧
        ((chanPress ⟨⟨[]⟩⟩ 64)._S.writes = (⟨⟨[]⟩⟩ : midiComms)._S.writes ++ [[0xD9, 64]] ∧
          [0xD9, 64].length = 2)) :=
  ⟨by decide, by decide, two_byte_operations ⟨⟨[]⟩⟩ 5 64 (by decide) (by decide)⟩

/-- Claim C6 fails on the code: `pitchBlend(0x12, 0x34)` on a fresh stream
makes one `write` call of the two bytes 0xE9, 0x12 only; the second data value
0x34 handed to `midiSend` is not among the bytes written, so the stream does
not hold 0xE9, 0x12, 0x34. -/
theorem pitchBlend_drops_second_value :
    (pitchBlend ⟨⟨[]⟩⟩ 0x12 0x34)._S.writes = [[0xE9, 0x12]] ∧
      (pitchBlend ⟨⟨[]⟩⟩ 0x12 0x34)._S.writes ≠ [[0xE9, 0x12, 0x34]] ∧
      (pitchBlend ⟨⟨[]⟩⟩ 0x12 0x34)._S.bytes.length = 2 := by
  decide

/-! ## The channel of the derived operations -/

/-- Claim C7: every derived operation (7 message type operations, 8 channel
mode operations, 6 control change operations), with any arguments, makes one
`write` call whose first byte has low nibble 9: the channel is always the
percussion channel. -/
theorem derived_first_byte_low_nibble (op : DerivedOp) (self : midiComms) :
    ∃ (b0 : Nat) (rest : List Nat),
      (op.run self)._S.writes = self._S.writes ++ [b0 :: rest] ∧
        b0 &&& 0x0F = 9 ∧ b0 % 16 = PERCUSSION_CHANNEL := by
  obtain ⟨message, d1, d2, hm, hrun⟩ := run_eq_midiSend op self
  obtain ⟨rest, h⟩ := midiSend_first_byte self message PERCUSSION_CHANNEL d1 d2
  rw [hrun]
  refine ⟨_, rest, h, ?_, ?_⟩ <;>
    rcases hm with rfl | rfl | rfl | rfl | rfl | rfl | rfl <;> decide

/-! ## Channel mode messages and control changes -/

/-- Claim C8: each channel mode operation does what `ctrlChange` does with its
fixed controller number, and writes 0xB9, that controller, and the value (0
where the operation takes no argument): `chanSoundOff()` is
`ctrlChange(0x78, 0)` and writes 0xB9, 0x78, 0x00; `chanReset()` is
`ctrlChange(0x79, 0)`; `chanLocalCtrl(v)` is `ctrlChange(0x7A, v)`;
`chanNotesOff()` is `ctrlChange(0x7B, 0)`; `chanOmniOff()` is
`ctrlChange(0x7C, 0)`; `chanOmniOn()` is `ctrlChange(0x7D, 0)`; `chanMonoOn(n)`
is `ctrlChange(0x7E, n)`; `chanPolyOn()` is `ctrlChange(0x7F, 0)`; for all
`uint8_t` v and n. -/
theorem channel_mode_as_ctrlChange (self : midiComms) (v n : Nat) (hv : v < 256)
    (hn : n < 256) :
    (chanSoundOff self = ctrlChange self 0x78 0 ∧
        (chanSoundOff self)._S.writes = self._S.writes ++ [[0xB9, 0x78, 0x00]]) ∧
      (chanReset self = ctrlChange self 0x79 0 ∧
        (chanReset self)._S.writes = self._S.writes ++ [[0xB9, 0x79, 0x00]]) ∧
      (chanLocalCtrl self v = ctrlChange self 0x7A v ∧
        (chanLocalCtrl self v)._S.writes = self._S.writes ++ [[0xB9, 0x7A, v]]) ∧
      (chanNotesOff self = ctrlChange self 0x7B 0 ∧
        (chanNotesOff self)._S.writes = self._S.writes ++ [[0xB9, 0x7B, 0x00]]) ∧
      (chanOmniOff self = ctrlChange self 0x7C 0 ∧
        (chanOmniOff self)._S.writes = self._S.writes ++ [[0xB9, 0x7C, 0x00]]) ∧
      (chanOmniOn self = ctrlChange self 0x7D 0 ∧
        (chanOmniOn self)._S.writes = self._S.writes ++ [[0xB9, 0x7D, 0x00]]) ∧
      (chanMonoOn self n = ctrlChange self 0x7E n ∧
        (chanMonoOn self n)._S.writes = self._S.writes ++ [[0xB9, 0x7E, n]]) ∧
      (chanPolyOn self = ctrlChange self 0x7F 0 ∧
        (chanPolyOn self)._S.writes = self._S.writes ++ [[0xB9, 0x7F, 0x00]]) := by
  refine ⟨⟨rfl, ?_⟩, ⟨rfl, ?_⟩, ⟨rfl, ?_⟩, ⟨rfl, ?_⟩, ⟨rfl, ?_⟩, ⟨rfl, ?_⟩, ⟨rfl, ?_⟩,
    ⟨rfl, ?_⟩⟩ <;>
    simp [chanSoundOff, chanReset, chanLocalCtrl, chanNotesOff, chanOmniOff, chanOmniOn,
      chanMonoOn, chanPolyOn, PERCUSSION_CHANNEL, midiSend_writes, Nat.mod_eq_of_lt hv,
      Nat.mod_eq_of_lt hn]

/-- Claim C8 at v = 127 and n = 16 on a fresh stream. -/
theorem channel_mode_as_ctrlChange_witness :
    (127 : Nat) < 256 ∧ (16 : Nat) < 256 ∧
      ((chanSoundOff ⟨⟨[]⟩⟩ = ctrlChange ⟨⟨[]⟩⟩ 0x78 0 ∧
          (chanSoundOff ⟨⟨[]⟩⟩)._S.writes =
            (⟨⟨[]⟩⟩ : midiComms)._S.writes ++ [[0xB9, 0x78, 0x00]]) ∧
        (chanReset ⟨⟨[]⟩⟩ = ctrlChange ⟨⟨[]⟩⟩ 0x79 0 ∧
          (chanReset ⟨⟨[]⟩⟩)._S.writes =
            (⟨⟨[]⟩⟩ : midiComms)._S.writes ++ [[0xB9, 0x79, 0x00]]) ∧
        (chanLocalCtrl ⟨⟨[]⟩⟩ 127 = ctrlChange ⟨⟨[]⟩⟩ 0x7A 127 ∧
          (chanLocalCtrl ⟨⟨[]⟩⟩ 127)._S.writes =
            (⟨⟨[]⟩⟩ : midiComms)._S.writes ++ [[0xB9, 0x7A, 127]]) ∧
        (chanNotesOff ⟨⟨[]⟩⟩ = ctrlChange ⟨⟨[]⟩⟩ 0x7B 0 ∧
          (chanNotesOff ⟨⟨[]⟩⟩)._S.writes =
            (⟨⟨[]⟩⟩ : midiComms)._S.writes ++ [[0xB9, 0x7B, 0x00]]) ∧
        (chanOmniOff ⟨⟨[]⟩⟩ = ctrlChange ⟨⟨[]⟩⟩ 0x7C 0 ∧
          (chanOmniOff ⟨⟨[]⟩⟩)._S.writes =
            (⟨⟨[]⟩⟩ : midiComms)._S.writes ++ [[0xB9, 0x7C, 0x00]]) ∧
        (chanOmniOn ⟨⟨[]⟩⟩ = ctrlChange ⟨⟨[]⟩⟩ 0x7D 0 ∧
          (chanOmniOn ⟨⟨[]⟩⟩)._S.writes =
            (⟨⟨[]⟩⟩ : midiComms)._S.writes ++ [[0xB9, 0x7D, 0x00]]) ∧
        (chanMonoOn ⟨⟨[]⟩⟩ 16 = ctrlChange ⟨⟨[]⟩⟩ 0x7E 16 ∧
          (chanMonoOn ⟨⟨[]⟩⟩ 16)._S.writes =
            (⟨⟨[]⟩⟩ : midiComms)._S.writes ++ [[0xB9, 0x7E, 16]]) ∧
        (chanPolyOn ⟨⟨[]⟩⟩ = ctrlChange ⟨⟨[]⟩⟩ 0x7F 0 ∧
          (chanPolyOn ⟨⟨[]⟩⟩)._S.writes =
            (⟨⟨[]⟩⟩ : midiComms)._S.writes ++ [[0xB9, 0x7F, 0x00]])) :=
  ⟨by decide, by decide, channel_mode_as_ctrlChange ⟨⟨[]⟩⟩ 127 16 (by decide) (by decide)⟩

/-- Claim C9: for every `uint8_t` x, the six bank, modulation and volume
operations do what `ctrlChange` does with the controllers 0x00, 0x20, 0x01,
0x21, 0x07, 0x27: `ctlBankMSB(x)` writes 0xB9, 0x00, x; `ctlBankLSB(x)` writes
0xB9, 0x20, x; `ctlModMSB(x)` writes 0xB9, 0x01, x; `ctlModLSB(x)` writes 0xB9,
0x21, x; `ctlVolMSB(x)` writes 0xB9, 0x07, x; `ctlVolLSB(x)` writes 0xB9, 0x27,
x. -/
theorem control_change_operations (self : midiComms) (x : Nat) (hx : x < 256) :
    (ctlBankMSB self x = ctrlChange self 0x00 x ∧
        (ctlBankMSB self x)._S.writes = self._S.writes ++ [[0xB9, 0x00, x]]) ∧
      (ctlBankLSB self x = ctrlChange self 0x20 x ∧
        (ctlBankLSB self x)._S.writes = self._S.writes ++ [[0xB9, 0x20, x]]) ∧
      (ctlModMSB self x = ctrlChange self 0x01 x ∧
        (ctlModMSB self x)._S.writes = self._S.writes ++ [[0xB9, 0x01, x]]) ∧
      (ctlModLSB self x = ctrlChange self 0x21 x ∧
        (ctlModLSB self x)._S.writes = self._S.writes ++ [[0xB9, 0x21, x]]) ∧
      (ctlVolMSB self x = ctrlChange self 0x07 x ∧
        (ctlVolMSB self x)._S.writes = self._S.writes ++ [[0xB9, 0x07, x]]) ∧
      (ctlVolLSB self x = ctrlChange self 0x27 x ∧
        (ctlVolLSB self x)._S.writes = self._S.writes ++ [[0xB9, 0x27, x]]) := by
  refine ⟨⟨rfl, ?_⟩, ⟨rfl, ?_⟩, ⟨rfl, ?_⟩, ⟨rfl, ?_⟩, ⟨rfl, ?_⟩, ⟨rfl, ?_⟩⟩ <;>
    simp [ctlBankMSB, ctlBankLSB, ctlModMSB, ctlModLSB, ctlVolMSB, ctlVolLSB,
      PERCUSSION_CHANNEL, midiSend_writes, Nat.mod_eq_of_lt hx]

/-- Claim C9 at x = 200, after one earlier call. -/
theorem control_change_operations_witness :
    (200 : Nat) < 256 ∧
      ((ctlBankMSB ⟨⟨[[0xC9, 1]]⟩⟩ 200 = ctrlChange ⟨⟨[[0xC9, 1]]⟩⟩ 0x00 200 ∧
          (ctlBankMSB ⟨⟨[[0xC9, 1]]⟩⟩ 200)._S.writes =
            (⟨⟨[[0xC9, 1]]⟩⟩ : midiComms)._S.writes ++ [[0xB9, 0x00, 200]]) ∧
        (ctlBankLSB ⟨⟨[[0xC9, 1]]⟩⟩ 200 = ctrlChange ⟨⟨[[0xC9, 1]]⟩⟩ 0x20 200 ∧
          (ctlBankLSB ⟨⟨[[0xC9, 1]]⟩⟩ 200)._S.writes =
            (⟨⟨[[0xC9, 1]]⟩⟩ : midiComms)._S.writes ++ [[0xB9, 0x20, 200]]) ∧
        (ctlModMSB ⟨⟨[[0xC9, 1]]⟩⟩ 200 = ctrlChange ⟨⟨[[0xC9, 1]]⟩⟩ 0x01 200 ∧
          (ctlModMSB ⟨⟨[[0xC9, 1]]⟩⟩ 200)._S.writes =
            (⟨⟨[[0xC9, 1]]⟩⟩ : midiComms)._S.writes ++ [[0xB9, 0x01, 200]]) ∧
        (ctlModLSB ⟨⟨[[0xC9, 1]]⟩⟩ 200 = ctrlChange ⟨⟨[[0xC9, 1]]⟩⟩ 0x21 200 ∧
          (ctlModLSB ⟨⟨[[0xC9, 1]]⟩⟩ 200)._S.writes =
            (⟨⟨[[0xC9, 1]]⟩⟩ : midiComms)._S.writes ++ [[0xB9, 0x21, 200]]) ∧
        (ctlVolMSB ⟨⟨[[0xC9, 1]]⟩⟩ 200 = ctrlChange ⟨⟨[[0xC9, 1]]⟩⟩ 0x07 200 ∧
          (ctlVolMSB ⟨⟨[[0xC9, 1]]⟩⟩ 200)._S.writes =
            (⟨⟨[[0xC9, 1]]⟩⟩ : midiComms)._S.writes ++ [[0xB9, 0x07, 200]]) ∧
        (ctlVolLSB ⟨⟨[[0xC9, 1]]⟩⟩ 200 = ctrlChange ⟨⟨[[0xC9, 1]]⟩⟩ 0x27 200 ∧
          (ctlVolLSB ⟨⟨[[0xC9, 1]]⟩⟩ 200)._S.writes =
            (⟨⟨[[0xC9, 1]]⟩⟩ : midiComms)._S.writes ++ [[0xB9, 0x27, 200]])) :=
  ⟨by decide, control_change_operations ⟨⟨[[0xC9, 1]]⟩⟩ 200 (by decide)⟩

/-! ## The effect on the stream -/

/-- Claim C10: for all `uint8_t` arguments, `midiSend` appends exactly one
`write` call to the stream; its payload is the assembled bytes in assembly
order (status, `d1`, and `d2` when `message` is at most 0xB0), two or three of
them; every earlier call is left as it was; and after a second `midiSend` the
bytes the stream has received are the old ones, then the first message, then
the second. -/
theorem midiSend_appends_one_write (self : midiComms) (message channel d1 d2 : Nat)
    (hm : message < 256) (hc : channel < 256) (h1 : d1 < 256) (h2 : d2 < 256) :
    (midiSend self message channel d1 d2)._S.writes =
        self._S.writes ++ [payload message channel d1 d2] ∧
      payload message channel d1 d2 =
        (if message ≤ 0xb0 then [(message + channel) % 256, d1, d2]
          else [(message + channel) % 256, d1]) ∧
      ((payload message channel d1 d2).length = 2 ∨
        (payload message channel d1 d2).length = 3) ∧
      (midiSend self message channel d1 d2)._S.writes.length = self._S.writes.length + 1 ∧
      (∀ i : Nat, i < self._S.writes.length →
        (midiSend self message channel d1 d2)._S.writes[i]? = self._S.writes[i]?) ∧
      ∀ m2 c2 e1 e2 : Nat, m2 < 256 → c2 < 256 → e1 < 256 → e2 < 256 →
        (midiSend (midiSend self message channel d1 d2) m2 c2 e1 e2)._S.bytes =
          self._S.bytes ++ payload message channel d1 d2 ++ payload m2 c2 e1 e2 := by
  have hp : ∀ m c a b : Nat, payload m c a b =
      (if m ≤ 0xb0 then [(m + c) % 256, a, b] else [(m + c) % 256, a]) := by
    intro m c a b
    unfold payload assemble uint8_t
    by_cases h : m ≤ 0xb0 <;> simp [h]
  have hw : ∀ (t : midiComms) (m c a b : Nat), m < 256 → c < 256 → a < 256 → b < 256 →
      (midiSend t m c a b)._S.writes = t._S.writes ++ [payload m c a b] := by
    intro t m c a b hm hc ha hb
    rw [midiSend_writes, hp, Nat.mod_eq_of_lt hm, Nat.mod_eq_of_lt hc, Nat.mod_eq_of_lt ha,
      Nat.mod_eq_of_lt hb]
  have hw1 := hw self message channel d1 d2 hm hc h1 h2
  refine ⟨hw1, hp _ _ _ _, ?_, ?_, ?_, ?_⟩
  · rw [hp]
    by_cases h : message ≤ 0xb0
    · right; rw [if_pos h]; rfl
    · left; rw [if_neg h]; rfl
  · rw [hw1]; simp
  · intro i hi
    rw [hw1, List.getElem?_append_left hi]
  · intro m2 c2 e1 e2 hm2 hc2 he1 he2
    unfold Stream.bytes
    rw [hw _ m2 c2 e1 e2 hm2 hc2 he1 he2, hw1]
    simp

/-- Claim C10 at a Note On sent after one earlier call, followed by a Program
Change. -/
theorem midiSend_appends_one_write_witness :
    (0x90 : Nat) < 256 ∧ (9 : Nat) < 256 ∧ (60 : Nat) < 256 ∧ (100 : Nat) < 256 ∧
      ((midiSend ⟨⟨[[0x89, 1, 0]]⟩⟩ 0x90 9 60 100)._S.writes =
          (⟨⟨[[0x89, 1, 0]]⟩⟩ : midiComms)._S.writes ++ [payload 0x90 9 60 100] ∧
        payload 0x90 9 60 100 =
          (if (0x90 : Nat) ≤ 0xb0 then [(0x90 + 9) % 256, 60, 100]
            else [(0x90 + 9) % 256, 60]) ∧
        ((payload 0x90 9 60 100).length = 2 ∨ (payload 0x90 9 60 100).length = 3) ∧
        (midiSend ⟨⟨[[0x89, 1, 0]]⟩⟩ 0x90 9 60 100)._S.writes.length =
          (⟨⟨[[0x89, 1, 0]]⟩⟩ : midiComms)._S.writes.length + 1 ∧
        (∀ i : Nat, i < (⟨⟨[[0x89, 1, 0]]⟩⟩ : midiComms)._S.writes.length →
          (midiSend ⟨⟨[[0x89, 1, 0]]⟩⟩ 0x90 9 60 100)._S.writes[i]? =
            (⟨⟨[[0x89, 1, 0]]⟩⟩ : midiComms)._S.writes[i]?) ∧
        ∀ m2 c2 e1 e2 : Nat, m2 < 256 → c2 < 256 → e1 < 256 → e2 < 256 →
          (midiSend (midiSend ⟨⟨[[0x89, 1, 0]]⟩⟩ 0x90 9 60 100) m2 c2 e1 e2)._S.bytes =
            (⟨⟨[[0x89, 1, 0]]⟩⟩ : midiComms)._S.bytes ++ payload 0x90 9 60 100 ++
              payload m2 c2 e1 e2) :=
  ⟨by decide, by decide, by decide, by decide,
    midiSend_appends_one_write ⟨⟨[[0x89, 1, 0]]⟩⟩ 0x90 9 60 100 (by decide) (by decide)
      (by decide) (by decide)⟩

/-! ## The percussion note map -/

/-- Claim C11: the constants `ACOUSTIC_SNARE`, `CLOSED_HI_HAT` and `COWBELL`
have the General MIDI values 38, 42 and 56, also as entries of the map. -/
theorem percussion_spot_values :
    ACOUSTIC_SNARE = 38 ∧ CLOSED_HI_HAT = 42 ∧ COWBELL = 56 ∧
      ("ACOUSTIC_SNARE", 38) ∈ percussionMap ∧ ("CLOSED_HI_HAT", 42) ∈ percussionMap ∧
      ("COWBELL", 56) ∈ percussionMap := by
  refine ⟨rfl, rfl, rfl, ?_, ?_, ?_⟩ <;> simp [percussionMap, ACOUSTIC_SNARE, CLOSED_HI_HAT, COWBELL]

/-- Claim C14: the note map is a bijection onto 35..81: there are 47 named
constants, their names and their values are pairwise distinct, each value lies
in 35..81 and so in 0..127, and every note number from 35 to 81 is the value of
exactly one constant. -/
theorem percussion_map_bijective :
    percussionMap.length = 47 ∧
      percussionNames.Nodup ∧
      percussionNotes.Nodup ∧
      (∀ v ∈ percussionNotes, 35 ≤ v ∧ v ≤ 81 ∧ v ≤ 127) ∧
      (∀ n : Nat, 35 ≤ n → n ≤ 81 →
        (percussionMap.filter fun e => e.2 = n).length = 1) ∧
      percussionNotes.Perm (List.range' 35 47) := by
  refine ⟨rfl, ?_, ?_, ?_, ?_, ?_⟩
  · decide
  · decide
  · decide
  · intro n h1 h2
    interval_cases n <;> rfl
  · decide

/-! ## Arguments outside the MIDI ranges -/

/-- Claim C12: for all `uint8_t` arguments, with no other precondition,
`midiSend` writes `(message + channel) mod 256`, `d1`, `d2` when `message` is
at most 0xB0, and `(message + channel) mod 256`, `d1` otherwise. The length is
3 exactly when the `message` argument is at most 0xB0, the first byte wraps
modulo 256, and `d1` and `d2` are forwarded as they are, above 127 too. -/
theorem midiSend_unchecked (self : midiComms) (message channel d1 d2 : Nat)
    (hm : message < 256) (hc : channel < 256) (h1 : d1 < 256) (h2 : d2 < 256) :
    ∃ p : List Nat,
      (midiSend self message channel d1 d2)._S.writes = self._S.writes ++ [p] ∧
        p = (if message ≤ 0xb0 then [(message + channel) % 256, d1, d2]
          else [(message + channel) % 256, d1]) ∧
        (p.length = 3 ↔ message ≤ 0xb0) ∧
        (p.length = 2 ↔ ¬ message ≤ 0xb0) ∧
        p[0]? = some ((message + channel) % 256) ∧
        p[1]? = some d1 ∧
        (message ≤ 0xb0 → p[2]? = some d2) := by
  refine ⟨_, midiSend_writes self message channel d1 d2, ?_⟩
  rw [Nat.mod_eq_of_lt hm, Nat.mod_eq_of_lt hc, Nat.mod_eq_of_lt h1, Nat.mod_eq_of_lt h2]
  by_cases h : message ≤ 0xb0
  · simp [h]
  · simp [h]

/-- Claim C12 at `message` 0xB1 and `channel` 0xFF: the first byte wraps to
0xB0, yet only two bytes are written since `message` exceeds 0xB0; the data
value 200 exceeds 127 and is written as it is. -/
theorem midiSend_unchecked_witness :
    (0xb1 : Nat) < 256 ∧ (0xff : Nat) < 256 ∧ (200 : Nat) < 256 ∧ (255 : Nat) < 256 ∧
      ∃ p : List Nat,
        (midiSend ⟨⟨[]⟩⟩ 0xb1 0xff 200 255)._S.writes =
            (⟨⟨[]⟩⟩ : midiComms)._S.writes ++ [p] ∧
          p = (if (0xb1 : Nat) ≤ 0xb0 then [(0xb1 + 0xff) % 256, 200, 255]
            else [(0xb1 + 0xff) % 256, 200]) ∧
          (p.length = 3 ↔ (0xb1 : Nat) ≤ 0xb0) ∧
          (p.length = 2 ↔ ¬ (0xb1 : Nat) ≤ 0xb0) ∧
          p[0]? = some ((0xb1 + 0xff) % 256) ∧
          p[1]? = some 200 ∧
          ((0xb1 : Nat) ≤ 0xb0 → p[2]? = some 255) :=
  ⟨by decide, by decide, by decide, by decide,
    midiSend_unchecked ⟨⟨[]⟩⟩ 0xb1 0xff 200 255 (by decide) (by decide) (by decide) (by decide)⟩

/-! ## The status byte -/

/-- Claim C13: for a `message` with low nibble zero and a `channel` of at most
15, the first byte `b0` written by `midiSend` gives both back: `b0 AND 0xF0` is
`message` and `b0 AND 0x0F` is `channel`, the sum `message + channel` equals
`message OR channel`, and another pair of the same kind with the same first
byte is the same pair. The bound on the channel is needed: the pairs
(0x80, 16) and (0x90, 0) give the same first byte. -/
theorem status_byte_round_trip (self : midiComms) (message channel d1 d2 : Nat)
    (hm : message < 256) (hlow : message &&& 0x0F = 0) (hc : channel ≤ 15) :
    (∃ (b0 : Nat) (rest : List Nat),
        (midiSend self message channel d1 d2)._S.writes = self._S.writes ++ [b0 :: rest] ∧
          b0 &&& 0xF0 = message ∧ b0 &&& 0x0F = channel ∧
          b0 = message + channel ∧ message + channel = message ||| channel) ∧
      (∀ (m2 c2 b : Nat) (r1 r2 : List Nat),
        m2 < 256 → m2 &&& 0x0F = 0 → c2 ≤ 15 →
        (midiSend self message channel d1 d2)._S.writes = self._S.writes ++ [b :: r1] →
        (midiSend self m2 c2 d1 d2)._S.writes = self._S.writes ++ [b :: r2] →
        m2 = message ∧ c2 = channel) ∧
      (∃ (b : Nat) (r1 r2 : List Nat),
        (midiSend self 0x80 16 d1 d2)._S.writes = self._S.writes ++ [b :: r1] ∧
          (midiSend self 0x90 0 d1 d2)._S.writes = self._S.writes ++ [b :: r2]) := by
  have hmod : ∀ x : Nat, x &&& 0x0F = x % 16 := fun x => Nat.and_pow_two_sub_one_eq_mod x 4
  have hm16 : message % 16 = 0 := by rw [← hmod]; exact hlow
  have hsum : (message % 256 + channel % 256) % 256 = message + channel := by omega
  have htab : ∀ k < 16, ∀ c < 16,
      (16 * k + c) &&& 0xF0 = 16 * k ∧ 16 * k + c = 16 * k ||| c := by decide
  have hk : message = 16 * (message / 16) := by omega
  have hkc := htab (message / 16) (by omega) channel (by omega)
  rw [← hk] at hkc
  refine ⟨?_, ?_, ?_⟩
  · obtain ⟨rest, h⟩ := midiSend_first_byte self message channel d1 d2
    rw [hsum] at h
    refine ⟨_, rest, h, hkc.1, ?_, rfl, hkc.2⟩
    rw [hmod]
    omega
  · intro m2 c2 b r1 r2 hm2 hlow2 hc2 e1 e2
    have hm216 : m2 % 16 = 0 := by rw [← hmod]; exact hlow2
    obtain ⟨rest1, h1⟩ := midiSend_first_byte self message channel d1 d2
    obtain ⟨rest2, h2⟩ := midiSend_first_byte self m2 c2 d1 d2
    rw [e1] at h1
    rw [e2] at h2
    have hb1 := (List.cons.inj (List.cons.inj (List.append_cancel_left h1)).1).1
    have hb2 := (List.cons.inj (List.cons.inj (List.append_cancel_left h2)).1).1
    omega
  · obtain ⟨rest1, h1⟩ := midiSend_first_byte self 0x80 16 d1 d2
    obtain ⟨rest2, h2⟩ := midiSend_first_byte self 0x90 0 d1 d2
    exact ⟨_, rest1, rest2, h1, h2⟩

/-- Claim C13 at Note On (0x90) on channel 9. -/
theorem status_byte_round_trip_witness :
    (0x90 : Nat) < 256 ∧ (0x90 : Nat) &&& 0x0F = 0 ∧ (9 : Nat) ≤ 15 ∧
      ((∃ (b0 : Nat) (rest : List Nat),
          (midiSend ⟨⟨[]⟩⟩ 0x90 9 60 100)._S.writes =
              (⟨⟨[]⟩⟩ : midiComms)._S.writes ++ [b0 :: rest] ∧
            b0 &&& 0xF0 = 0x90 ∧ b0 &&& 0x0F = 9 ∧
            b0 = 0x90 + 9 ∧ 0x90 + 9 = 0x90 ||| 9) ∧
        (∀ (m2 c2 b : Nat) (r1 r2 : List Nat),
          m2 < 256 → m2 &&& 0x0F = 0 → c2 ≤ 15 →
          (midiSend ⟨⟨[]⟩⟩ 0x90 9 60 100)._S.writes =
            (⟨⟨[]⟩⟩ : midiComms)._S.writes ++ [b :: r1] →
          (midiSend ⟨⟨[]⟩⟩ m2 c2 60 100)._S.writes =
            (⟨⟨[]⟩⟩ : midiComms)._S.writes ++ [b :: r2] →
          m2 = 0x90 ∧ c2 = 9) ∧
        (∃ (b : Nat) (r1 r2 : List Nat),
          (midiSend ⟨⟨[]⟩⟩ 0x80 16 60 100)._S.writes =
              (⟨⟨[]⟩⟩ : midiComms)._S.writes ++ [b :: r1] ∧
            (midiSend ⟨⟨[]⟩⟩ 0x90 0 60 100)._S.writes =
              (⟨⟨[]⟩⟩ : midiComms)._S.writes ++ [b :: r2])) :=
  ⟨by decide, by decide, by decide,
    status_byte_round_trip ⟨⟨[]⟩⟩ 0x90 9 60 100 (by decide) (by decide) (by decide)⟩

/-! ## Framing -/

/-- A derived operation called with arguments of at most 127 is one call of
`midiSend` on the percussion channel with one of the seven status values and
two data values of at most 127. -/
theorem run_eq_midiSend_data (op : DerivedOp) (self : midiComms)
    (h : ∀ a ∈ op.args, a ≤ 127) :
    ∃ message d1 d2 : Nat,
      (message = 0x80 ∨ message = 0x90 ∨ message = 0xa0 ∨ message = 0xb0 ∨
        message = 0xc0 ∨ message = 0xd0 ∨ message = 0xe0) ∧
      d1 ≤ 127 ∧ d2 ≤ 127 ∧
      op.run self = midiSend self message PERCUSSION_CHANNEL d1 d2 := by
  cases op <;> simp only [DerivedOp.args, List.mem_cons, List.mem_singleton, List.not_mem_nil,
    or_false, forall_eq_or_imp, forall_eq, false_implies, implies_true] at h
  case noteOff n => exact ⟨0x80, n, 0, by simp, h, by omega, rfl⟩
  case noteOn n v => exact ⟨0x90, n, v, by simp, h.1, h.2, rfl⟩
  case keyPress n p => exact ⟨0xa0, n, p, by simp, h.1, h.2, rfl⟩
  case ctrlChange c v => exact ⟨0xb0, c, v, by simp, h.1, h.2, rfl⟩
  case progChange n => exact ⟨0xc0, n, 0, by simp, h, by omega, rfl⟩
  case chanPress p => exact ⟨0xd0, p, 0, by simp, h, by omega, rfl⟩
  case pitchBlend m l => exact ⟨0xe0, m, l, by simp, h.1, h.2, rfl⟩
  case chanSoundOff => exact ⟨0xb0, 0x78, 0, by simp, by omega, by omega, rfl⟩
  case chanReset => exact ⟨0xb0, 0x79, 0, by simp, by omega, by omega, rfl⟩
  case chanLocalCtrl v => exact ⟨0xb0, 0x7a, v, by simp, by omega, h, rfl⟩
  case chanNotesOff => exact ⟨0xb0, 0x7b, 0, by simp, by omega, by omega, rfl⟩
  case chanOmniOff => exact ⟨0xb0, 0x7c, 0, by simp, by omega, by omega, rfl⟩
  case chanOmniOn => exact ⟨0xb0, 0x7d, 0, by simp, by omega, by omega, rfl⟩
  case chanMonoOn n => exact ⟨0xb0, 0x7e, n, by simp, by omega, h, rfl⟩
  case chanPolyOn => exact ⟨0xb0, 0x7f, 0, by simp, by omega, by omega, rfl⟩
  case ctlBankMSB b => exact ⟨0xb0, 0x00, b, by simp, by omega, h, rfl⟩
  case ctlBankLSB b => exact ⟨0xb0, 0x20, b, by simp, by omega, h, rfl⟩
  case ctlModMSB m => exact ⟨0xb0, 0x01, m, by simp, by omega, h, rfl⟩
  case ctlModLSB m => exact ⟨0xb0, 0x21, m, by simp, by omega, h, rfl⟩
  case ctlVolMSB v => exact ⟨0xb0, 0x07, v, by simp, by omega, h, rfl⟩
  case ctlVolLSB v => exact ⟨0xb0, 0x27, v, by simp, by omega, h, rfl⟩

/-- Claim C15: a derived operation called with all arguments at most 127
makes one `write` call whose first byte is a status byte (at least 0x80, with
high nibble from 0x8 to 0xE) and whose following bytes are all data bytes
(below 0x80): no status byte stands in a data position. -/
theorem derived_framing (op : DerivedOp) (self : midiComms)
    (h : ∀ a ∈ op.args, a ≤ 127) :
    ∃ (b0 : Nat) (rest : List Nat),
      (op.run self)._S.writes = self._S.writes ++ [b0 :: rest] ∧
        0x80 ≤ b0 ∧ b0 < 256 ∧ 0x8 ≤ b0 / 16 ∧ b0 / 16 ≤ 0xE ∧
        ∀ x ∈ rest, x < 0x80 := by
  obtain ⟨message, d1, d2, hm, h1, h2, hrun⟩ := run_eq_midiSend_data op self h
  have hw := midiSend_writes self message PERCUSSION_CHANNEL d1 d2
  rw [hrun, hw]
  have e1 : d1 % 256 = d1 := by omega
  have e2 : d2 % 256 = d2 := by omega
  rw [e1, e2]
  unfold PERCUSSION_CHANNEL
  by_cases hle : message % 256 ≤ 0xb0
  · rw [if_pos hle]
    refine ⟨_, _, rfl, ?_, ?_, ?_, ?_, ?_⟩
    · omega
    · omega
    · omega
    · omega
    · intro x hx
      simp only [List.mem_cons, List.mem_singleton, List.not_mem_nil, or_false] at hx
      omega
  · rw [if_neg hle]
    refine ⟨_, _, rfl, ?_, ?_, ?_, ?_, ?_⟩
    · omega
    · omega
    · omega
    · omega
    · intro x hx
      simp only [List.mem_singleton] at hx
      omega

/-- Claim C15 at `noteOn(60, 100)`. -/
theorem derived_framing_witness :
    (∀ a ∈ (DerivedOp.noteOn 60 100).args, a ≤ 127) ∧
      ∃ (b0 : Nat) (rest : List Nat),
        ((DerivedOp.noteOn 60 100).run ⟨⟨[]⟩⟩)._S.writes =
            (⟨⟨[]⟩⟩ : midiComms)._S.writes ++ [b0 :: rest] ∧
          0x80 ≤ b0 ∧ b0 < 256 ∧ 0x8 ≤ b0 / 16 ∧ b0 / 16 ≤ 0xE ∧
          ∀ x ∈ rest, x < 0x80 :=
  ⟨by decide, derived_framing (DerivedOp.noteOn 60 100) ⟨⟨[]⟩⟩ (by decide)⟩

/-! ## The switch USE_MIDI -/

/-- Claim C16, as the spec states it, fails when the sink is `Serial`: built
with `USE_MIDI` zero, `midiSend(0x90, 9, 60, 100)` on an object whose `_S` is
bound to `Serial` leaves seven `print` calls on that stream, so the sink is not
left unchanged. -/
theorem debug_build_changes_serial_sink :
    ¬ (midiSendBuild 0 .Serial ⟨[], []⟩ 0x90 9 60 100).1.get .Serial =
        (⟨[], []⟩ : Machine).get .Serial := by
  decide

/-- Claim C16, amended: for all `uint8_t` arguments the locals `msg` and `l`
assembled by `midiSend` are the same in both builds. Built with `USE_MIDI` one,
the only effect is one `write` call on the sink carrying exactly the bytes
`msg[0..l-1]`. Built with `USE_MIDI` zero, no stream receives a `write` call:
the only output is a trace of `print` calls on `Serial`, so a stream other
than `Serial` is left unchanged, and so is the sink when it is such a
stream. -/
theorem USE_MIDI_decides_forwarding (S : StreamRef) (w : Machine)
    (message channel d1 d2 : Nat)
    (hm : message < 256) (hc : channel < 256) (h1 : d1 < 256) (h2 : d2 < 256) :
    (midiSendBuild 1 S w message channel d1 d2).2 =
        (midiSendBuild 0 S w message channel d1 d2).2 ∧
      (midiSendBuild 1 S w message channel d1 d2).2 = assemble message channel d1 d2 ∧
      (midiSendBuild USE_MIDI S w message channel d1 d2).1 =
        w.call S (.write (payload message channel d1 d2)) ∧
      (midiSendBuild 1 S w message channel d1 d2).1 =
        w.call S (.write (payload message channel d1 d2)) ∧
      (midiSendBuild 0 S w message channel d1 d2).1.other = w.other ∧
      (S = .other →
        (midiSendBuild 0 S w message channel d1 d2).1.get S = w.get S) ∧
      ∃ trace : List Call,
        (midiSendBuild 0 S w message channel d1 d2).1.Serial = w.Serial ++ trace ∧
          ∀ c ∈ trace, ∀ bytes : List Nat, c ≠ .write bytes := by
  have e0 : (midiSendBuild 0 S w message channel d1 d2).1 =
      { w with Serial := w.Serial ++
        [.printF "\nCh: ", .printF "0x", .print ((assemble message channel d1 d2).1.getD 0 0) 16,
          .printF " d1: ", .print ((assemble message channel d1 d2).1.getD 1 0) 10,
          .printF " d2: ", .print ((assemble message channel d1 d2).1.getD 2 0) 10] } := by
    simp [midiSendBuild, PRINT, PRINTX, Machine.call, uint8_t, Nat.mod_eq_of_lt hm,
      Nat.mod_eq_of_lt hc, Nat.mod_eq_of_lt h1, Nat.mod_eq_of_lt h2]
  have e1 : (midiSendBuild 1 S w message channel d1 d2).1 =
      w.call S (.write (payload message channel d1 d2)) := by
    simp [midiSendBuild, PRINT, PRINTX, payload, uint8_t, Nat.mod_eq_of_lt hm,
      Nat.mod_eq_of_lt hc, Nat.mod_eq_of_lt h1, Nat.mod_eq_of_lt h2]
  have ea : (midiSendBuild 1 S w message channel d1 d2).2 = assemble message channel d1 d2 := by
    simp [midiSendBuild, uint8_t, Nat.mod_eq_of_lt hm, Nat.mod_eq_of_lt hc, Nat.mod_eq_of_lt h1,
      Nat.mod_eq_of_lt h2]
  refine ⟨rfl, ea, e1, e1, ?_, ?_, ?_⟩
  · rw [e0]
  · intro hS
    rw [e0, hS]
    rfl
  · rw [e0]
    refine ⟨_, rfl, ?_⟩
    intro c hc bytes
    simp only [List.mem_cons, List.mem_singleton, List.not_mem_nil, or_false] at hc
    rcases hc with rfl | rfl | rfl | rfl | rfl | rfl | rfl <;> simp

/-- Claim C16, amended, at a Program Change sent through a stream other than
`Serial`. -/
theorem USE_MIDI_decides_forwarding_witness :
    (0xc0 : Nat) < 256 ∧ (9 : Nat) < 256 ∧ (5 : Nat) < 256 ∧ (0 : Nat) < 256 ∧
      ((midiSendBuild 1 .other ⟨[], [.write [0x99, 60, 100]]⟩ 0xc0 9 5 0).2 =
          (midiSendBuild 0 .other ⟨[], [.write [0x99, 60, 100]]⟩ 0xc0 9 5 0).2 ∧
        (midiSendBuild 1 .other ⟨[], [.write [0x99, 60, 100]]⟩ 0xc0 9 5 0).2 =
          assemble 0xc0 9 5 0 ∧
        (midiSendBuild USE_MIDI .other ⟨[], [.write [0x99, 60, 100]]⟩ 0xc0 9 5 0).1 =
          (⟨[], [.write [0x99, 60, 100]]⟩ : Machine).call .other
            (.write (payload 0xc0 9 5 0)) ∧
        (midiSendBuild 1 .other ⟨[], [.write [0x99, 60, 100]]⟩ 0xc0 9 5 0).1 =
          (⟨[], [.write [0x99, 60, 100]]⟩ : Machine).call .other
            (.write (payload 0xc0 9 5 0)) ∧
        (midiSendBuild 0 .other ⟨[], [.write [0x99, 60, 100]]⟩ 0xc0 9 5 0).1.other =
          (⟨[], [.write [0x99, 60, 100]]⟩ : Machine).other ∧
        (StreamRef.other = .other →
          (midiSendBuild 0 .other ⟨[], [.write [0x99, 60, 100]]⟩ 0xc0 9 5 0).1.get .other =
            (⟨[], [.write [0x99, 60, 100]]⟩ : Machine).get .other) ∧
        ∃ trace : List Call,
          (midiSendBuild 0 .other ⟨[], [.write [0x99, 60, 100]]⟩ 0xc0 9 5 0).1.Serial =
              (⟨[], [.write [0x99, 60, 100]]⟩ : Machine).Serial ++ trace ∧
            ∀ c ∈ trace, ∀ bytes : List Nat, c ≠ .write bytes) :=
  ⟨by decide, by decide, by decide, by decide,
    USE_MIDI_decides_forwarding .other ⟨[], [.write [0x99, 60, 100]]⟩ 0xc0 9 5 0 (by decide)
      (by decide) (by decide) (by decide)⟩

end MidiPercussionKit
